import Mathlib

/-!
Verification of the AudioEddy client against its specification.

The definitions below are a shallow embedding of the client-side state
management code:

* `src/frontend/app/store/slices/jobsSlice.ts` — the Redux jobs slice
  (`updateJobProgress`, `completeJob`, `failJob`, the `checkJobStatus` and
  `startProcessing` thunk reducers);
* `src/frontend/app/store/slices/uiSlice.ts` (audio slice half) — the
  `deleteAudioFile.fulfilled` reducer on `AudioState`;
* `src/frontend/pages/MusicGeneration.jsx` — `handleGenerate` validation;
* `src/frontend/pages/Results.jsx` — the status-poll interval tick;
* the upload screen (`handleFilePicker`, `handleDrop`) and the processing
  screen (`getProgressPercentage`, the poll tick) of the app screens file.

JavaScript numbers are modelled as `ℚ` (all operations involved are exact),
byte sizes and durations as `ℕ`, optional / nullable fields as `Option`,
and the `new Date().toISOString()` timestamps as an explicit `now : String`
argument to the reducers that read the clock.
-/

namespace AudioEddy

/-- Job status union type from jobsSlice.ts. -/
inductive JobStatus where
  | pending
  | processing
  | completed
  | failed
deriving DecidableEq, Repr

/-- Enhancement type union from jobsSlice.ts. -/
inductive EnhancementType where
  | fix_quality
  | remove_noise
  | studio_master
  | vocal_enhance
  | bass_boost
  | clarity_boost
  | custom_prompt
deriving DecidableEq, Repr

/-- ProcessingJob interface from jobsSlice.ts. -/
structure ProcessingJob where
  id : String
  fileId : String
  enhancementType : EnhancementType
  status : JobStatus
  progress : ℚ
  createdAt : String
  completedAt : Option String := none
  resultFileId : Option String := none
  error : Option String := none
deriving DecidableEq, Repr

/-- JobsState interface from jobsSlice.ts. -/
structure JobsState where
  jobs : List ProcessingJob
  currentJob : Option ProcessingJob
  isProcessing : Bool
  isDownloading : Bool
  error : Option String
deriving DecidableEq, Repr

/-- The initialState of the jobs slice. -/
def initialJobsState : JobsState :=
  { jobs := [], currentJob := none, isProcessing := false,
    isDownloading := false, error := none }

/-- JavaScript truthiness of an optional string (`undefined`, `null` and the
empty string are falsy). Used for the `if (jobData.result_file_id)` and
`if (jobData.error)` guards in the checkJobStatus reducer. -/
def truthyStr : Option String → Bool
  | none => false
  | some s => !s.isEmpty

/-- Update the element at `findIndex`: the reducers locate a job with
`state.jobs.findIndex(job => job.id === jobId)` and mutate that single
element, leaving the rest of the array untouched. -/
def updateFirst (p : α → Bool) (f : α → α) : List α → List α
  | [] => []
  | x :: xs => if p x then f x :: xs else x :: updateFirst p f xs

/-- Shared `// Update current job if it matches` step of the reducers. -/
def updateCurrent (jobId : String) (f : ProcessingJob → ProcessingJob) :
    Option ProcessingJob → Option ProcessingJob
  | none => none
  | some c => if c.id == jobId then some (f c) else some c

/-- Field update performed by the updateJobProgress reducer on a matching
job: `progress` is assigned the payload value, and `status` is assigned
only when the optional payload status is present. -/
def progressUpd (progress : ℚ) (status? : Option JobStatus)
    (j : ProcessingJob) : ProcessingJob :=
  { j with progress := progress, status := status?.getD j.status }

/-- The updateJobProgress reducer (jobsSlice.ts lines 83-102). -/
def updateJobProgress (jobId : String) (progress : ℚ)
    (status? : Option JobStatus) (s : JobsState) : JobsState :=
  { s with
    jobs := updateFirst (fun j => j.id == jobId) (progressUpd progress status?) s.jobs,
    currentJob := updateCurrent jobId (progressUpd progress status?) s.currentJob }

/-- Field update performed by the completeJob reducer on a matching job. -/
def completeUpd (now resultFileId : String) (j : ProcessingJob) : ProcessingJob :=
  { j with status := .completed, progress := 100,
           resultFileId := some resultFileId, completedAt := some now }

/-- The completeJob reducer (jobsSlice.ts lines 103-124); `now` stands for
`new Date().toISOString()`. -/
def completeJob (now jobId resultFileId : String) (s : JobsState) : JobsState :=
  { s with
    jobs := updateFirst (fun j => j.id == jobId) (completeUpd now resultFileId) s.jobs,
    currentJob := updateCurrent jobId (completeUpd now resultFileId) s.currentJob,
    isProcessing := false }

/-- Field update performed by the failJob reducer on a matching job. -/
def failUpd (now errMsg : String) (j : ProcessingJob) : ProcessingJob :=
  { j with status := .failed, error := some errMsg, completedAt := some now }

/-- The failJob reducer (jobsSlice.ts lines 125-144). -/
def failJob (now jobId errMsg : String) (s : JobsState) : JobsState :=
  { s with
    jobs := updateFirst (fun j => j.id == jobId) (failUpd now errMsg) s.jobs,
    currentJob := updateCurrent jobId (failUpd now errMsg) s.currentJob,
    isProcessing := false }

/-- Response payload of `audioAPI.getJobStatus` as read by the
checkJobStatus.fulfilled reducer. -/
structure JobStatusPayload where
  status : JobStatus
  progress : Option ℚ := none
  result_file_id : Option String := none
  error : Option String := none
deriving DecidableEq, Repr

/-- Field update performed by the checkJobStatus.fulfilled reducer on a
matching job: status and progress are overwritten (`jobData.progress || 0`),
while `resultFileId` and `error` are overwritten only when the payload
field is truthy. -/
def checkStatusUpd (d : JobStatusPayload) (j : ProcessingJob) : ProcessingJob :=
  { j with
    status := d.status,
    progress := d.progress.getD 0,
    resultFileId := if truthyStr d.result_file_id then d.result_file_id else j.resultFileId,
    error := if truthyStr d.error then d.error else j.error }

/-- The checkJobStatus.fulfilled merge reducer (jobsSlice.ts lines 187-220). -/
def checkJobStatusFulfilled (jobId : String) (d : JobStatusPayload)
    (s : JobsState) : JobsState :=
  { s with
    jobs := updateFirst (fun j => j.id == jobId) (checkStatusUpd d) s.jobs,
    currentJob := updateCurrent jobId (checkStatusUpd d) s.currentJob,
    isProcessing :=
      if d.status = .completed ∨ d.status = .failed then false else s.isProcessing }

/-- Response payload of `audioAPI.processAudio` as read by the
startProcessing.fulfilled reducer. -/
structure StartPayload where
  job_id : String
  status : JobStatus
  progress : Option ℚ := none
deriving DecidableEq, Repr

/-- The startProcessing.fulfilled reducer (jobsSlice.ts lines 168-181):
builds a new job from the payload and the thunk argument and appends it. -/
def startProcessingFulfilled (now : String) (p : StartPayload)
    (fileId : String) (enhancementType : EnhancementType)
    (s : JobsState) : JobsState :=
  let newJob : ProcessingJob :=
    { id := p.job_id, fileId := fileId, enhancementType := enhancementType,
      status := p.status, progress := p.progress.getD 0, createdAt := now }
  { s with jobs := s.jobs ++ [newJob], currentJob := some newJob,
           isProcessing := true }

/-- One job-store operation, in the vocabulary of the spec's transition
claims: progress update, complete, fail, a merged checkJobStatus result,
or a fulfilled startProcessing. -/
inductive JobsOp where
  | update (jobId : String) (progress : ℚ) (status? : Option JobStatus)
  | complete (now jobId resultFileId : String)
  | fail (now jobId errMsg : String)
  | check (jobId : String) (d : JobStatusPayload)
  | start (now : String) (p : StartPayload) (fileId : String) (e : EnhancementType)
deriving Repr

/-- Apply one job-store operation to the state. -/
def applyOp (s : JobsState) : JobsOp → JobsState
  | .update jobId progress status? => updateJobProgress jobId progress status? s
  | .complete now jobId r => completeJob now jobId r s
  | .fail now jobId e => failJob now jobId e s
  | .check jobId d => checkJobStatusFulfilled jobId d s
  | .start now p fileId e => startProcessingFulfilled now p fileId e s

/-- Apply a sequence of job-store operations from left to right. -/
def applyOps (s : JobsState) (ops : List JobsOp) : JobsState :=
  ops.foldl applyOp s

/-- AudioFile interface from the audio slice. -/
structure AudioFile where
  id : String
  filename : String
  size : ℕ
  uploadTime : String
  uri : Option String := none
  fileDuration : Option ℚ := none
  waveformData : Option (List ℚ) := none
deriving DecidableEq, Repr

/-- AudioState interface from the audio slice. -/
structure AudioState where
  currentFile : Option AudioFile
  uploadedFiles : List AudioFile
  isUploading : Bool
  uploadProgress : ℚ
  error : Option String
  isPlaying : Bool
  currentPosition : ℚ
  audioDuration : ℚ
deriving DecidableEq, Repr

/-- The deleteAudioFile.fulfilled reducer (audio slice, lines 319-327):
filters the deleted id out of `uploadedFiles` and nulls `currentFile`
when it was the deleted file. No other field is touched. -/
def deleteAudioFileFulfilled (fileId : String) (s : AudioState) : AudioState :=
  { s with
    uploadedFiles := s.uploadedFiles.filter (fun file => !(file.id == fileId)),
    currentFile :=
      match s.currentFile with
      | some c => if c.id == fileId then none else some c
      | none => none }

/-- Local component state of MusicGeneration.jsx read by handleGenerate. -/
structure MusicGenState where
  prompt : String
  genDuration : ℕ
  isPremiumUser : Bool
  useReferenceAudio : Bool
  genreTags : String
  referenceAudioFileId : Option String := none
deriving DecidableEq, Repr

/-- Outcome of one handleGenerate call: either an early return with
`setError(msg)` and no network call, or the `ApiService.generateMusic`
request that creates a job. -/
inductive GenerateOutcome where
  | validationError (msg : String)
  | apiRequest (prompt : String) (genDuration : ℕ)
      (reference_audio_id : Option String) (genre_tags : Option String)
deriving DecidableEq, Repr

/-- Whether the outcome reached the generate-music API (and hence could
produce a job id). -/
def GenerateOutcome.callsApi : GenerateOutcome → Bool
  | .validationError _ => false
  | .apiRequest _ _ _ _ => true

/-- The handleGenerate validation sequence (MusicGeneration.jsx lines
25-64): empty prompt, free-tier duration cap, then missing genre tags;
each early-returns with an error before `ApiService.generateMusic`. -/
def handleGenerate (s : MusicGenState) : GenerateOutcome :=
  if s.prompt.trim.isEmpty then
    .validationError "Please enter a music description"
  else if !s.isPremiumUser ∧ 100 < s.genDuration then
    .validationError "Free users are limited to 100 seconds. Upgrade to Premium for longer generations."
  else if !s.useReferenceAudio ∧ s.genreTags.trim.isEmpty then
    .validationError "Please enter genre tags or switch to reference audio mode"
  else
    .apiRequest s.prompt.trim s.genDuration
      (if s.useReferenceAudio then s.referenceAudioFileId else none)
      (if !s.useReferenceAudio then some s.genreTags.trim else none)

/-- The duration slider onChange clamp (MusicGeneration.jsx lines 160-168):
free users are snapped back to 100 whenever the new value exceeds 100. -/
def durationSliderChange (isPremiumUser : Bool) (newValue : ℕ) : ℕ :=
  if !isPremiumUser ∧ 100 < newValue then 100 else newValue

/-- An action dispatched by the upload handlers: an error notification
(uiSlice `showErrorNotification`) or the `uploadAudioFile` thunk. -/
inductive UploadDispatch where
  | errorNotification (title message : String)
  | uploadAudioFile
deriving DecidableEq, Repr

/-- The 50 MiB limit `50 * 1024 * 1024` of the upload handlers. -/
def maxUploadBytes : ℕ := 50 * 1024 * 1024

/-- handleFilePicker on a picked (non-canceled) asset: the guard is
`file.size && file.size > 50 * 1024 * 1024`, so an absent or zero size is
falsy and falls through to the upload dispatch. -/
def handleFilePicker (size? : Option ℕ) : UploadDispatch :=
  match size? with
  | some n =>
      if n ≠ 0 ∧ maxUploadBytes < n then
        .errorNotification "File Too Large" "Please select a file smaller than 50MB"
      else .uploadAudioFile
  | none => .uploadAudioFile

/-- handleDrop on a dropped file (web platform): rejects non-audio MIME
types first, then sizes above 50 MiB, and only then dispatches the upload. -/
def handleDrop (fileType : String) (size : ℕ) : UploadDispatch :=
  if !(fileType.startsWith "audio/") then
    .errorNotification "Invalid File Type" "Please select an audio file"
  else if maxUploadBytes < size then
    .errorNotification "File Too Large" "Please select a file smaller than 50MB"
  else .uploadAudioFile

/-- getProgressPercentage of the ProcessingScreen: switch on the current
job's status; the processing branch is
`Math.min(90, 10 + (elapsedTime / estimatedTime) * 80)`. -/
def getProgressPercentage (currentJob : Option ProcessingJob)
    (elapsedTime estimatedTime : ℚ) : ℚ :=
  match currentJob with
  | none => 0
  | some j =>
      match j.status with
      | .pending => 10
      | .processing => min 90 (10 + elapsedTime / estimatedTime * 80)
      | .completed => 100
      | .failed => 0

/-- Status of the currently displayed job, if any. -/
def statusOf : Option ProcessingJob → Option JobStatus
  | none => none
  | some j => some j.status

/-- Results.jsx poll tick (lines 33-47): after `getJobStatus` resolves,
the interval is cleared exactly when the returned status string is
completed or failed. -/
def resultsPollCleared (status : String) : Bool :=
  status == "completed" || status == "failed"

/-- MusicGeneration.jsx pollJobStatus (lines 66-88): a next `setTimeout`
poll is scheduled exactly when the returned status string is processing
or pending. -/
def musicGenPollReschedules (status : String) : Bool :=
  status == "processing" || status == "pending"

/-- ProcessingScreen poll tick (app screens file, lines 1904-1913): every
2 seconds, `if (currentJob?.id) dispatch(checkJobStatus(currentJob.id))`.
Returns the job id whose status is requested on this tick, or `none`
when no request is issued. The decision reads only `currentJob?.id`,
never the job's status. -/
def processingScreenPollRequest (currentJob : Option ProcessingJob) :
    Option String :=
  match currentJob with
  | some j => if !j.id.isEmpty then some j.id else none
  | none => none

/-- Action creators exported by jobsSlice.ts (lines 239-248). -/
def jobsSliceActionNames : List String :=
  ["setCurrentJob", "clearCurrentJob", "updateJobProgress", "completeJob",
   "failJob", "clearError", "removeJob", "clearAllJobs"]

/-- Async thunks defined by jobsSlice.ts. -/
def jobsSliceThunkNames : List String :=
  ["startProcessing", "checkJobStatus", "downloadResult"]

/-- Actions dispatched by the UploadScreen mount effect (app screens file,
lines 464-469): `fetchAudioFiles()` then `resetProcessingFlags()`, the
latter commented `Reset any stuck processing flags from persisted state`. -/
def uploadScreenStartupDispatches : List String :=
  ["fetchAudioFiles", "resetProcessingFlags"]

/-- A job satisfies the result/error relationship of the spec: the result
file id is set iff the status is completed, and the error is set iff the
status is failed. -/
def resultErrorOk (j : ProcessingJob) : Bool :=
  (j.resultFileId.isSome == (j.status == JobStatus.completed)) &&
  (j.error.isSome == (j.status == JobStatus.failed))

/-- The result/error relationship, required of every job in the store. -/
def jobsInvariant (s : JobsState) : Bool :=
  s.jobs.all resultErrorOk &&
  (match s.currentJob with
   | some c => resultErrorOk c
   | none => true)

/-- A processing job half-way through, as produced by startProcessing and
several progress updates. -/
def procJob : ProcessingJob :=
  { id := "job-1", fileId := "file-1", enhancementType := .fix_quality,
    status := .processing, progress := 50, createdAt := "t0" }

/-- Store holding `procJob` as the current job. -/
def procState : JobsState :=
  { jobs := [procJob], currentJob := some procJob, isProcessing := true,
    isDownloading := false, error := none }

/-- A completed job with its result file recorded. -/
def doneJob : ProcessingJob :=
  { id := "job-1", fileId := "file-1", enhancementType := .fix_quality,
    status := .completed, progress := 100, createdAt := "t0",
    completedAt := some "t1", resultFileId := some "res-1" }

/-- Store holding the completed `doneJob`. -/
def doneState : JobsState :=
  { jobs := [doneJob], currentJob := some doneJob, isProcessing := false,
    isDownloading := false, error := none }

/-- Operation sequence: a fulfilled startProcessing followed by an
updateJobProgress dispatch that also carries a status payload. -/
def invariantBreakOps : List JobsOp :=
  [ .start "t0" { job_id := "job-1", status := .processing, progress := some 0 }
      "file-1" .fix_quality,
    .update "job-1" 50 (some .completed) ]

/-- Whether a handleGenerate outcome is an early validation-error return. -/
def GenerateOutcome.isValidationError : GenerateOutcome → Bool
  | .validationError _ => true
  | .apiRequest _ _ _ _ => false

/-- Whether an upload-handler dispatch is `showErrorNotification`. -/
def UploadDispatch.isErrorNotification : UploadDispatch → Bool
  | .errorNotification _ _ => true
  | .uploadAudioFile => false

/-- A free-tier music-generation request asking for 250 seconds. -/
def freeGenState : MusicGenState :=
  { prompt := "calm piano melody", genDuration := 250, isPremiumUser := false,
    useReferenceAudio := true, genreTags := "" }

/-- An uploaded audio file. -/
def fileA : AudioFile :=
  { id := "f1", filename := "a.wav", size := 1000, uploadTime := "t0" }

/-- A second uploaded audio file. -/
def fileB : AudioFile :=
  { id := "f2", filename := "b.wav", size := 2000, uploadTime := "t1" }

/-- An audio store holding two files, currently playing the first. -/
def sampleAudioState : AudioState :=
  { currentFile := some fileA, uploadedFiles := [fileA, fileB],
    isUploading := false, uploadProgress := 100, error := none,
    isPlaying := true, currentPosition := 3, audioDuration := 10 }

/-- If the predicate is invariant under the update function, updating the
first match commutes with `find?` of that predicate. -/
theorem find?_updateFirst (p : α → Bool) (f : α → α)
    (hpf : ∀ x, p (f x) = p x) :
    ∀ l : List α, (updateFirst p f l).find? p = (l.find? p).map f := by
  intro l
  induction l with
  | nil => rfl
  | cons x xs ih =>
    cases hx : p x with
    | true =>
        have hfx : p (f x) = true := by rw [hpf x, hx]
        simp [updateFirst, hx, List.find?_cons_of_pos, hfx]
    | false =>
        have hfx : p (f x) = false := by rw [hpf x, hx]
        simp [updateFirst, hx, List.find?_cons_of_neg, ih]

/-- Updating the first match twice with an idempotent, predicate-preserving
function is the same as updating it once. -/
theorem updateFirst_idem (p : α → Bool) (f : α → α)
    (hpf : ∀ x, p (f x) = p x) (hff : ∀ x, f (f x) = f x) :
    ∀ l : List α, updateFirst p f (updateFirst p f l) = updateFirst p f l := by
  intro l
  induction l with
  | nil => rfl
  | cons x xs ih =>
    cases hx : p x with
    | true =>
        have hfx : p (f x) = true := by rw [hpf x, hx]
        simp [updateFirst, hx, hfx, hff x]
    | false =>
        simp [updateFirst, hx, ih]

/-- Updating the current job twice with an idempotent, id-preserving
function is the same as updating it once. -/
theorem updateCurrent_idem (jobId : String) (f : ProcessingJob → ProcessingJob)
    (hid : ∀ x, (f x).id = x.id) (hff : ∀ x, f (f x) = f x) :
    ∀ c, updateCurrent jobId f (updateCurrent jobId f c) = updateCurrent jobId f c := by
  intro c
  cases c with
  | none => rfl
  | some x =>
    cases hx : (x.id == jobId) with
    | true =>
        have hfx : ((f x).id == jobId) = true := by rw [hid x, hx]
        simp [updateCurrent, hx, hfx, hff x]
    | false =>
        simp [updateCurrent, hx]

/-- C1, counterexample: the stored progress of a processing job is 50;
dispatching updateJobProgress with the lower fraction 30 is not a no-op —
it overwrites the stored progress with 30. -/
theorem updateJobProgress_lower_not_noop :
    procJob.status = .processing ∧
    procJob.progress = 50 ∧
    (updateJobProgress "job-1" 30 none procState).jobs.map ProcessingJob.progress = [30] ∧
    statusOf (updateJobProgress "job-1" 30 none procState).currentJob = some .processing ∧
    (updateJobProgress "job-1" 30 none procState).jobs.map ProcessingJob.progress
      ≠ procState.jobs.map ProcessingJob.progress := by decide

/-- C1, amended: progress updates are not clamped. For any store whose
first job with the given id is in processing with progress above the
incoming fraction, updateJobProgress overwrites the stored progress with
the lower incoming value (so progress decreases; the update is not a
no-op). -/
theorem updateJobProgress_overwrites_lower
    (s : JobsState) (jobId : String) (pr : ℚ) (st? : Option JobStatus)
    (j : ProcessingJob)
    (hfind : s.jobs.find? (fun jb => jb.id == jobId) = some j)
    (hproc : j.status = .processing)
    (hlt : pr < j.progress) :
    (updateJobProgress jobId pr st? s).jobs.find? (fun jb => jb.id == jobId)
      = some (progressUpd pr st? j) ∧
    (progressUpd pr st? j).progress = pr ∧
    pr ≠ j.progress := by
  refine ⟨?_, rfl, ne_of_lt hlt⟩
  have hj : (updateJobProgress jobId pr st? s).jobs
      = updateFirst (fun jb => jb.id == jobId) (progressUpd pr st? ) s.jobs := rfl
  have hpfK : ∀ x : ProcessingJob,
      ((progressUpd pr st? x).id == jobId) = (x.id == jobId) := fun x => rfl
  rw [hj, find?_updateFirst _ _ hpfK, hfind]
  rfl

/-- C1, witness: the amended statement applied to the concrete store
`procState` with the lower update 30 against stored progress 50. -/
theorem updateJobProgress_overwrites_lower_witness :
    (procState.jobs.find? (fun jb => jb.id == "job-1") = some procJob) ∧
    procJob.status = .processing ∧ (30:ℚ) < procJob.progress ∧
    ((updateJobProgress "job-1" 30 none procState).jobs.find? (fun jb => jb.id == "job-1")
        = some (progressUpd 30 none procJob) ∧
      (progressUpd 30 none procJob).progress = 30 ∧ (30:ℚ) ≠ procJob.progress) :=
  ⟨by decide, by decide, by decide,
    updateJobProgress_overwrites_lower procState "job-1" 30 none procJob
      (by decide) (by decide) (by decide)⟩

/-- C2, counterexample: the two-step sequence startProcessing followed by
updateJobProgress with a completed status payload is a sequence of the
claimed job-store operations, and it reaches a state whose job has status
completed with no result file id, violating the result/error invariant. -/
theorem jobs_invariant_violated_counterexample :
    (applyOps initialJobsState invariantBreakOps).jobs.map
        (fun j => (j.status, j.resultFileId)) = [(.completed, none)] ∧
    jobsInvariant (applyOps initialJobsState invariantBreakOps) = false := by decide

/-- C2, amended: completeJob and failJob do establish the claimed
relationship on the job they target — after completeJob the first job with
the given id has status completed and the given result file id, and after
failJob it has status failed and the given error — but the biconditional
is not an invariant of every reachable state, because updateJobProgress
with a status payload and checkJobStatus merges can mark a job completed
or failed without setting the corresponding field. -/
theorem completeJob_failJob_establish_fields
    (s : JobsState) (now jobId r e : String) :
    ((completeJob now jobId r s).jobs.find? (fun jb => jb.id == jobId)).map
        (fun jb => (jb.status, jb.resultFileId))
      = (s.jobs.find? (fun jb => jb.id == jobId)).map
        (fun _ => (JobStatus.completed, some r)) ∧
    ((failJob now jobId e s).jobs.find? (fun jb => jb.id == jobId)).map
        (fun jb => (jb.status, jb.error))
      = (s.jobs.find? (fun jb => jb.id == jobId)).map
        (fun _ => (JobStatus.failed, some e)) := by
  constructor
  · have hj : (completeJob now jobId r s).jobs
        = updateFirst (fun jb => jb.id == jobId) (completeUpd now r) s.jobs := rfl
    have hpfK : ∀ x : ProcessingJob,
        ((completeUpd now r x).id == jobId) = (x.id == jobId) := fun x => rfl
    rw [hj, find?_updateFirst _ _ hpfK]
    cases s.jobs.find? (fun jb => jb.id == jobId) <;> rfl
  · have hj : (failJob now jobId e s).jobs
        = updateFirst (fun jb => jb.id == jobId) (failUpd now e) s.jobs := rfl
    have hpfK : ∀ x : ProcessingJob,
        ((failUpd now e x).id == jobId) = (x.id == jobId) := fun x => rfl
    rw [hj, find?_updateFirst _ _ hpfK]
    cases s.jobs.find? (fun jb => jb.id == jobId) <;> rfl

/-- C2, witness: the amended statement applied to the concrete store
`procState`. -/
theorem completeJob_failJob_establish_fields_witness :
    ((completeJob "t1" "job-1" "res-1" procState).jobs.find?
        (fun jb => jb.id == "job-1")).map (fun jb => (jb.status, jb.resultFileId))
      = (procState.jobs.find? (fun jb => jb.id == "job-1")).map
        (fun _ => (JobStatus.completed, some "res-1")) ∧
    ((failJob "t1" "job-1" "boom" procState).jobs.find?
        (fun jb => jb.id == "job-1")).map (fun jb => (jb.status, jb.error))
      = (procState.jobs.find? (fun jb => jb.id == "job-1")).map
        (fun _ => (JobStatus.failed, some "boom")) :=
  completeJob_failJob_establish_fields procState "t1" "job-1" "res-1" "boom"

/-- C3, counterexample: `doneState` holds a completed (terminal) job, yet
a subsequent failJob dispatch changes its status to failed and sets its
error — the terminal state is left. -/
theorem failJob_leaves_terminal_counterexample :
    doneJob.status = .completed ∧
    (failJob "t2" "job-1" "boom" doneState).jobs.map (fun j => (j.status, j.error))
      = [(.failed, some "boom")] ∧
    statusOf (failJob "t2" "job-1" "boom" doneState).currentJob = some .failed := by decide

/-- C3, amended: no reducer guards on terminal status. failJob applied to
a store whose first job with the given id is already terminal (completed
or failed) still overwrites that job: its status becomes failed and its
error is set, so terminal states are not preserved. -/
theorem failJob_overwrites_terminal
    (s : JobsState) (now jobId e : String) (j : ProcessingJob)
    (hfind : s.jobs.find? (fun jb => jb.id == jobId) = some j)
    (hterm : j.status = .completed ∨ j.status = .failed) :
    (failJob now jobId e s).jobs.find? (fun jb => jb.id == jobId)
      = some (failUpd now e j) ∧
    (failUpd now e j).status = .failed ∧
    (failUpd now e j).error = some e := by
  refine ⟨?_, rfl, rfl⟩
  have hj : (failJob now jobId e s).jobs
      = updateFirst (fun jb => jb.id == jobId) (failUpd now e) s.jobs := rfl
  have hpfK : ∀ x : ProcessingJob,
      ((failUpd now e x).id == jobId) = (x.id == jobId) := fun x => rfl
  rw [hj, find?_updateFirst _ _ hpfK, hfind]
  rfl

/-- C3, witness: the amended statement applied to the completed job of
`doneState`. -/
theorem failJob_overwrites_terminal_witness :
    (doneState.jobs.find? (fun jb => jb.id == "job-1") = some doneJob) ∧
    (doneJob.status = .completed ∨ doneJob.status = .failed) ∧
    ((failJob "t2" "job-1" "boom" doneState).jobs.find? (fun jb => jb.id == "job-1")
        = some (failUpd "t2" "boom" doneJob) ∧
      (failUpd "t2" "boom" doneJob).status = .failed ∧
      (failUpd "t2" "boom" doneJob).error = some "boom") :=
  ⟨by decide, by decide,
    failJob_overwrites_terminal doneState "t2" "job-1" "boom" doneJob
      (by decide) (by decide)⟩

/-- C7, counterexample: a second delivery of complete with a different
result id is not rejected — it overwrites the stored result file id —
and a repeat with the same result id at a later wall-clock time is not a
no-op either, because completedAt is overwritten with the new time. -/
theorem completeJob_second_delivery_counterexample :
    (completeJob "t1" "job-1" "res-X" procState).jobs.map ProcessingJob.resultFileId
      = [some "res-X"] ∧
    (completeJob "t2" "job-1" "res-Y" (completeJob "t1" "job-1" "res-X" procState)).jobs.map
        ProcessingJob.resultFileId = [some "res-Y"] ∧
    (some "res-Y" : Option String) ≠ some "res-X" ∧
    completeJob "t2" "job-1" "res-X" (completeJob "t1" "job-1" "res-X" procState)
      ≠ completeJob "t1" "job-1" "res-X" procState := by decide

/-- C7, amended: completeJob applied twice with the same result id and the
same timestamp is a no-op the second time (the whole store is unchanged),
but there is no conflict detection: a second completeJob with any result
id overwrites the stored result file id of the first matching job with
the new value. -/
theorem completeJob_repeat_behavior
    (s : JobsState) (now now2 jobId r r2 : String) :
    completeJob now jobId r (completeJob now jobId r s) = completeJob now jobId r s ∧
    ((completeJob now2 jobId r2 (completeJob now jobId r s)).jobs.find?
        (fun jb => jb.id == jobId)).map ProcessingJob.resultFileId
      = (s.jobs.find? (fun jb => jb.id == jobId)).map (fun _ => some r2) := by
  constructor
  · have hpfK : ∀ x : ProcessingJob,
        ((completeUpd now r x).id == jobId) = (x.id == jobId) := fun x => rfl
    have hidK : ∀ x : ProcessingJob, (completeUpd now r x).id = x.id := fun x => rfl
    have hffK : ∀ x : ProcessingJob,
        completeUpd now r (completeUpd now r x) = completeUpd now r x := fun x => rfl
    have h1 := updateFirst_idem (fun jb => jb.id == jobId) (completeUpd now r)
      hpfK hffK s.jobs
    have h2 := updateCurrent_idem jobId _ hidK hffK s.currentJob
    show JobsState.mk _ _ _ _ _ = JobsState.mk _ _ _ _ _
    rw [show (completeJob now jobId r s).jobs
          = updateFirst (fun jb => jb.id == jobId) (completeUpd now r) s.jobs from rfl,
        show (completeJob now jobId r s).currentJob
          = updateCurrent jobId (completeUpd now r) s.currentJob from rfl,
        h1, h2]
    rfl
  · have hpfK1 : ∀ x : ProcessingJob,
        ((completeUpd now r x).id == jobId) = (x.id == jobId) := fun x => rfl
    have hpfK2 : ∀ x : ProcessingJob,
        ((completeUpd now2 r2 x).id == jobId) = (x.id == jobId) := fun x => rfl
    have h1 : (completeJob now2 jobId r2 (completeJob now jobId r s)).jobs
        = updateFirst (fun jb => jb.id == jobId) (completeUpd now2 r2)
            (updateFirst (fun jb => jb.id == jobId) (completeUpd now r) s.jobs) := rfl
    rw [h1, find?_updateFirst _ _ hpfK2, find?_updateFirst _ _ hpfK1]
    cases s.jobs.find? (fun jb => jb.id == jobId) <;> rfl

/-- C7, witness: the amended statement applied to the concrete store
`procState`, completing twice at the same timestamp and then with a
different result id. -/
theorem completeJob_repeat_behavior_witness :
    completeJob "t1" "job-1" "res-X" (completeJob "t1" "job-1" "res-X" procState)
      = completeJob "t1" "job-1" "res-X" procState ∧
    ((completeJob "t2" "job-1" "res-Y" (completeJob "t1" "job-1" "res-X" procState)).jobs.find?
        (fun jb => jb.id == "job-1")).map ProcessingJob.resultFileId
      = (procState.jobs.find? (fun jb => jb.id == "job-1")).map (fun _ => some "res-Y") :=
  completeJob_repeat_behavior procState "t1" "t2" "job-1" "res-X" "res-Y"

/-- C4: the UploadScreen mount effect dispatches `resetProcessingFlags()`
to clear stale persisted processing flags, but the jobs slice defines no
action or thunk of that name, so no reducer runs for the dispatch and the
persisted `isProcessing` flag is never cleared. -/
theorem resetProcessingFlags_missing :
    "resetProcessingFlags" ∈ uploadScreenStartupDispatches ∧
    "resetProcessingFlags" ∉ jobsSliceActionNames ∧
    "resetProcessingFlags" ∉ jobsSliceThunkNames := by decide

/-- C5: every music-generation request from a free-tier caller with a
duration above 100 seconds is rejected before any job is created —
handleGenerate returns a validation error and never reaches the
generate-music API — and the duration slider snaps such a value back to
100 for free users. -/
theorem free_tier_over_cap_rejected
    (s : MusicGenState) (hfree : s.isPremiumUser = false)
    (hdur : 100 < s.genDuration) :
    (handleGenerate s).isValidationError = true ∧
    (handleGenerate s).callsApi = false ∧
    durationSliderChange s.isPremiumUser s.genDuration = 100 := by
  refine ⟨?_, ?_, ?_⟩
  · rw [handleGenerate]
    by_cases hp : s.prompt.trim.isEmpty <;>
      simp [hp, hfree, hdur, GenerateOutcome.isValidationError]
  · rw [handleGenerate]
    by_cases hp : s.prompt.trim.isEmpty <;>
      simp [hp, hfree, hdur, GenerateOutcome.callsApi]
  · rw [durationSliderChange, hfree]
    simp [hdur]

/-- C5, witness: the statement applied to a concrete free-tier request of
250 seconds. -/
theorem free_tier_over_cap_rejected_witness :
    freeGenState.isPremiumUser = false ∧ 100 < freeGenState.genDuration ∧
    ((handleGenerate freeGenState).isValidationError = true ∧
      (handleGenerate freeGenState).callsApi = false ∧
      durationSliderChange freeGenState.isPremiumUser freeGenState.genDuration = 100) :=
  ⟨by decide, by decide,
    free_tier_over_cap_rejected freeGenState (by decide) (by decide)⟩

/-- C6: for any non-negative elapsed time and positive estimate, the
synthesized progress is at most 90 while the job is processing, exactly
10 while pending, monotonically non-decreasing in elapsed time, and
equals 100 only when the job is completed. -/
theorem getProgressPercentage_clamped
    (j : ProcessingJob) (jo : Option ProcessingJob) (e1 e2 est : ℚ)
    (he : 0 ≤ e1) (h12 : e1 ≤ e2) (hest : 0 < est) :
    (j.status = .processing → getProgressPercentage (some j) e1 est ≤ 90) ∧
    (j.status = .pending → getProgressPercentage (some j) e1 est = 10) ∧
    getProgressPercentage jo e1 est ≤ getProgressPercentage jo e2 est ∧
    (getProgressPercentage jo e1 est = 100 → statusOf jo = some .completed) := by
  refine ⟨?_, ?_, ?_, ?_⟩
  · intro hs
    obtain ⟨jid, jfid, jenh, jst, jprog, jca, jco, jres, jerr⟩ := j
    cases hs
    exact min_le_left _ _
  · intro hs
    obtain ⟨jid, jfid, jenh, jst, jprog, jca, jco, jres, jerr⟩ := j
    cases hs
    rfl
  · cases jo with
    | none => exact le_refl _
    | some j2 =>
      obtain ⟨jid, jfid, jenh, jst, jprog, jca, jco, jres, jerr⟩ := j2
      cases jst with
      | pending => exact le_refl _
      | completed => exact le_refl _
      | failed => exact le_refl _
      | processing =>
        have hdiv : e1 / est ≤ e2 / est := by gcongr
        show min 90 (10 + e1 / est * 80) ≤ min 90 (10 + e2 / est * 80)
        exact min_le_min (le_refl 90) (by linarith)
  · cases jo with
    | none =>
      intro h
      exact absurd h (by norm_num [getProgressPercentage])
    | some j2 =>
      obtain ⟨jid, jfid, jenh, jst, jprog, jca, jco, jres, jerr⟩ := j2
      cases jst with
      | pending =>
        intro h
        exact absurd h (by norm_num [getProgressPercentage])
      | completed => intro h; rfl
      | failed =>
        intro h
        exact absurd h (by norm_num [getProgressPercentage])
      | processing =>
        intro h
        have hmin : getProgressPercentage
            (some ⟨jid, jfid, jenh, .processing, jprog, jca, jco, jres, jerr⟩) e1 est
            ≤ 90 := min_le_left _ _
        rw [h] at hmin
        exact absurd hmin (by norm_num)

/-- C6, witness: the statement applied to the processing job `procJob`
with elapsed times 0 and 5 and estimate 120. -/
theorem getProgressPercentage_clamped_witness :
    (0:ℚ) ≤ 0 ∧ (0:ℚ) ≤ 5 ∧ (0:ℚ) < 120 ∧
    ((procJob.status = .processing → getProgressPercentage (some procJob) 0 120 ≤ 90) ∧
      (procJob.status = .pending → getProgressPercentage (some procJob) 0 120 = 10) ∧
      getProgressPercentage (some procJob) 0 120 ≤ getProgressPercentage (some procJob) 5 120 ∧
      (getProgressPercentage (some procJob) 0 120 = 100 →
        statusOf (some procJob) = some .completed)) :=
  ⟨by norm_num, by norm_num, by norm_num,
    getProgressPercentage_clamped procJob (some procJob) 0 5 120
      (by norm_num) (by norm_num) (by norm_num)⟩

/-- C8: any picked or dropped file larger than 50 MiB is rejected with an
error notification and the uploadAudioFile thunk is never dispatched, by
either handler. -/
theorem oversized_upload_rejected (n : ℕ) (fileType : String)
    (hn : maxUploadBytes < n) :
    (handleFilePicker (some n)).isErrorNotification = true ∧
    handleFilePicker (some n) ≠ .uploadAudioFile ∧
    (handleDrop fileType n).isErrorNotification = true ∧
    handleDrop fileType n ≠ .uploadAudioFile := by
  have hne : n ≠ 0 := by
    intro h
    rw [h] at hn
    exact absurd hn (by decide)
  have hpick : handleFilePicker (some n)
      = .errorNotification "File Too Large" "Please select a file smaller than 50MB" := by
    simp [handleFilePicker, hne, hn]
  refine ⟨by rw [hpick]; rfl, by rw [hpick]; simp, ?_, ?_⟩
  · rw [handleDrop]
    by_cases ht : fileType.startsWith "audio/" <;>
      simp [ht, hn, UploadDispatch.isErrorNotification]
  · rw [handleDrop]
    by_cases ht : fileType.startsWith "audio/" <;> simp [ht, hn]

/-- C8, witness: the statement applied to a 60 MiB audio file. -/
theorem oversized_upload_rejected_witness :
    maxUploadBytes < 62914560 ∧
    ((handleFilePicker (some 62914560)).isErrorNotification = true ∧
      handleFilePicker (some 62914560) ≠ .uploadAudioFile ∧
      (handleDrop "audio/wav" 62914560).isErrorNotification = true ∧
      handleDrop "audio/wav" 62914560 ≠ .uploadAudioFile) :=
  ⟨by decide, oversized_upload_rejected 62914560 "audio/wav" (by decide)⟩

/-- C9, counterexample: after a poll merges a terminal (failed) status
into the store, the ProcessingScreen tick still issues a further status
request for that job — the interval is not cleared on terminal status. -/
theorem processing_screen_polls_after_terminal :
    statusOf (checkJobStatusFulfilled "job-1"
        { status := .failed, error := some "boom" } procState).currentJob
      = some .failed ∧
    processingScreenPollRequest (checkJobStatusFulfilled "job-1"
        { status := .failed, error := some "boom" } procState).currentJob
      = some "job-1" := by decide

/-- C9, amended: the Results page interval is cleared and the
MusicGeneration timeout loop stops rescheduling exactly on terminal
statuses, but the ProcessingScreen tick decision reads only the current
job's id, never its status: it keeps issuing status requests for a
terminal job until the screen unmounts. -/
theorem poll_stop_behavior (j : ProcessingJob) (st : JobStatus) :
    resultsPollCleared "completed" = true ∧
    resultsPollCleared "failed" = true ∧
    musicGenPollReschedules "completed" = false ∧
    musicGenPollReschedules "failed" = false ∧
    processingScreenPollRequest (some { j with status := st })
      = processingScreenPollRequest (some j) :=
  ⟨by decide, by decide, by decide, by decide, rfl⟩

/-- C10: a fulfilled deleteAudioFile removes exactly the entries with the
deleted id from uploadedFiles — every other entry is kept, nothing is
added, and the relative order is preserved (the result is a sublist) —
clears currentFile precisely when it was the deleted file, and leaves
every other field of the audio state unchanged. -/
theorem deleteAudioFile_frame (fileId : String) (s : AudioState) :
    (deleteAudioFileFulfilled fileId s).uploadedFiles
      = s.uploadedFiles.filter (fun f => !(f.id == fileId)) ∧
    (∀ f : AudioFile, f ∈ (deleteAudioFileFulfilled fileId s).uploadedFiles
        ↔ (f ∈ s.uploadedFiles ∧ f.id ≠ fileId)) ∧
    List.Sublist (deleteAudioFileFulfilled fileId s).uploadedFiles s.uploadedFiles ∧
    ((deleteAudioFileFulfilled fileId s).currentFile = none
        ↔ (s.currentFile = none ∨ ∃ c, s.currentFile = some c ∧ c.id = fileId)) ∧
    (∀ c : AudioFile, s.currentFile = some c → c.id ≠ fileId →
        (deleteAudioFileFulfilled fileId s).currentFile = some c) ∧
    (deleteAudioFileFulfilled fileId s).isUploading = s.isUploading ∧
    (deleteAudioFileFulfilled fileId s).uploadProgress = s.uploadProgress ∧
    (deleteAudioFileFulfilled fileId s).error = s.error ∧
    (deleteAudioFileFulfilled fileId s).isPlaying = s.isPlaying ∧
    (deleteAudioFileFulfilled fileId s).currentPosition = s.currentPosition ∧
    (deleteAudioFileFulfilled fileId s).audioDuration = s.audioDuration := by
  have hup : (deleteAudioFileFulfilled fileId s).uploadedFiles
      = s.uploadedFiles.filter (fun f => !(f.id == fileId)) := rfl
  have hcf : (deleteAudioFileFulfilled fileId s).currentFile
      = (match s.currentFile with
         | some c => if c.id == fileId then none else some c
         | none => none) := rfl
  refine ⟨hup, ?_, ?_, ?_, ?_, rfl, rfl, rfl, rfl, rfl, rfl⟩
  · intro f
    rw [hup, List.mem_filter]
    simp
  · rw [hup]
    exact List.filter_sublist _
  · rw [hcf]
    cases hc : s.currentFile with
    | none => simp
    | some c =>
      by_cases hid : c.id = fileId
      · simp [hid]
      · simp [hid]
  · intro c hc hne
    rw [hcf, hc]
    simp [hne]

/-- C10, witness: the statement applied to the concrete two-file audio
store, deleting the currently selected first file. -/
theorem deleteAudioFile_frame_witness :
    ((deleteAudioFileFulfilled "f1" sampleAudioState).uploadedFiles
        = sampleAudioState.uploadedFiles.filter (fun f => !(f.id == "f1")) ∧
      (∀ f : AudioFile, f ∈ (deleteAudioFileFulfilled "f1" sampleAudioState).uploadedFiles
          ↔ (f ∈ sampleAudioState.uploadedFiles ∧ f.id ≠ "f1")) ∧
      List.Sublist (deleteAudioFileFulfilled "f1" sampleAudioState).uploadedFiles
        sampleAudioState.uploadedFiles ∧
      ((deleteAudioFileFulfilled "f1" sampleAudioState).currentFile = none
          ↔ (sampleAudioState.currentFile = none ∨
              ∃ c, sampleAudioState.currentFile = some c ∧ c.id = "f1")) ∧
      (∀ c : AudioFile, sampleAudioState.currentFile = some c → c.id ≠ "f1" →
          (deleteAudioFileFulfilled "f1" sampleAudioState).currentFile = some c) ∧
      (deleteAudioFileFulfilled "f1" sampleAudioState).isUploading
        = sampleAudioState.isUploading ∧
      (deleteAudioFileFulfilled "f1" sampleAudioState).uploadProgress
        = sampleAudioState.uploadProgress ∧
      (deleteAudioFileFulfilled "f1" sampleAudioState).error = sampleAudioState.error ∧
      (deleteAudioFileFulfilled "f1" sampleAudioState).isPlaying
        = sampleAudioState.isPlaying ∧
      (deleteAudioFileFulfilled "f1" sampleAudioState).currentPosition
        = sampleAudioState.currentPosition ∧
      (deleteAudioFileFulfilled "f1" sampleAudioState).audioDuration
        = sampleAudioState.audioDuration) :=
  deleteAudioFile_frame "f1" sampleAudioState

end AudioEddy
